import Mathlib

/-!
# Verification of `altitude-determination`

A shallow embedding of the two Rust source files of the
`LechevSpace/altitude-determination` repository, together with theorems
settling the specification claims about them.

The Rust code computes over `f64` with transcendental functions
(`powf`, `exp`, `ln`); we model those computations over `ℝ` with
`Real.rpow`, `Real.exp` and `Real.log`, which is the idealisation the
specification itself uses ("any real number").  Every numeric literal is
carried over verbatim; Rust `let` bindings of intermediate constants are
inlined with a comment naming them.
-/

open Real

/-- Atmospheric zones based on NASA's 1960s model.
(Both `src/lib.rs` and `src/main.rs` declare this enum identically.) -/
inductive AtmosphereZone
  | Troposphere
  | LowerStratosphere
  | UpperStratosphere
  deriving DecidableEq, Repr

noncomputable section

/-- `determine_zone` from `src/lib.rs`: zone from altitude, by an
if/else-if ladder with boundaries 11000 m and 20000 m, both closed at the
upper bound, and no lower bound on the input. -/
def determine_zone (altitude_m : ℝ) : AtmosphereZone :=
  if altitude_m ≤ 11000 then AtmosphereZone.Troposphere
  else if altitude_m ≤ 20000 then AtmosphereZone.LowerStratosphere
  else AtmosphereZone.UpperStratosphere

/-- `calculate_altitude` from `src/lib.rs`: the inverse converter
(zone, temperature, pressure) → optional altitude.  Rust `powf`/`exp`/`ln`
become `Real.rpow`/`Real.exp`/`Real.log`; `return None` on the range check
becomes the `if … then none` branch.  The Rust locals are inlined:
in the Troposphere arm `t = 15.04` (sea-level standard temperature) and
`p = 101.29 * ((t + 273.1)/288.08).powf(5.256)`; in the LowerStratosphere
arm `p = 22.65 * (-0.000157 * 11000.0).exp()`; in the UpperStratosphere
arm `t = -131.21 + 0.00299 * (25000.0 - 25000.0)` and
`p = 2.488 * ((t + 273.1)/216.6).powf(-11.388)`. -/
def calculate_altitude (zone : AtmosphereZone) (temperature_c pressure_kpa : ℝ) :
    Option ℝ :=
  match zone with
  | AtmosphereZone.Troposphere =>
      if pressure_kpa > 101.29 * ((15.04 + 273.1) / 288.08) ^ (5.256 : ℝ)
          ∨ pressure_kpa ≤ 22.65 then
        none
      else
        some ((((288.08 / (temperature_c + 273.1)) ^ ((1 : ℝ) / 5.256)) - 1)
          * 288.08 / 0.00649)
  | AtmosphereZone.LowerStratosphere =>
      if pressure_kpa > 22.65 * Real.exp (-0.000157 * 11000)
          ∨ pressure_kpa ≤ 2.488 then
        none
      else
        some (11000 + Real.log (pressure_kpa / 22.65) / (-0.000157))
  | AtmosphereZone.UpperStratosphere =>
      if pressure_kpa >
          2.488 * (((-131.21 + 0.00299 * (25000 - 25000)) + 273.1) / 216.6)
            ^ ((-11.388 : ℝ)) then
        none
      else
        some (25000 + (pressure_kpa / 2.488) ^ ((-1 : ℝ) / 11.388)
          * (216.6 / 273.15))

/-- Outcome of `AltitudeCalculator::calculate_altitude` in `src/main.rs`:
either the altitude is returned (`ok`), or the function panics
(`fatal`); the Rust panic carries a zone-specific message string, which
is not observable to a caller and is elided here. -/
inductive CalcResult
  | ok (altitude_m : ℝ)
  | fatal

namespace AltitudeCalculator

/-- `AltitudeCalculator::determine_zone` from `src/main.rs`: a `match` on
the altitude with range patterns `0.0..=11000.0`, `11000.0..=25000.0` and
a default arm, tried in order. -/
def determine_zone (altitude_m : ℝ) : AtmosphereZone :=
  if 0 ≤ altitude_m ∧ altitude_m ≤ 11000 then AtmosphereZone.Troposphere
  else if 11000 ≤ altitude_m ∧ altitude_m ≤ 25000 then
    AtmosphereZone.LowerStratosphere
  else AtmosphereZone.UpperStratosphere

/-- `AltitudeCalculator::calculate_altitude` from `src/main.rs`
(the consistency-check variant): converts hPa to kPa by dividing by 10,
re-derives the zone from the supplied altitude, computes the zone's
forward-model pressure there and compares within 0.01 kPa; on mismatch the
Rust code panics (modelled by `CalcResult.fatal`).  The Rust locals `t`
(zone temperature at `altitude_m`) are inlined into the pressure
formulas. -/
def calculate_altitude (temperature_c pressure_hpa altitude_m : ℝ) : CalcResult :=
  match determine_zone altitude_m with
  | AtmosphereZone.Troposphere =>
      -- t = 15.04 - 0.00649 * altitude_m
      if |pressure_hpa / 10 -
          101.29 * (((15.04 - 0.00649 * altitude_m) + 273.1) / 288.08)
            ^ (5.256 : ℝ)| < 0.01 then
        CalcResult.ok altitude_m
      else CalcResult.fatal
  | AtmosphereZone.LowerStratosphere =>
      -- t = -56.46 (constant, unused in the pressure formula)
      if |pressure_hpa / 10 -
          22.65 * Real.exp (-0.000157 * (altitude_m - 11000))| < 0.01 then
        CalcResult.ok altitude_m
      else CalcResult.fatal
  | AtmosphereZone.UpperStratosphere =>
      -- t = -131.21 + 0.00299 * (altitude_m - 25000.0)
      if |pressure_hpa / 10 -
          2.488 * (((-131.21 + 0.00299 * (altitude_m - 25000)) + 273.1) / 216.6)
            ^ ((-11.388 : ℝ))| < 0.01 then
        CalcResult.ok altitude_m
      else CalcResult.fatal

end AltitudeCalculator

/-- The forward model's temperature at an altitude: the per-zone local `t`
computed inside `AltitudeCalculator::calculate_altitude` in `src/main.rs`
(the spec's `state_at_altitude`, first component), with the zone taken
from `AltitudeCalculator::determine_zone`. -/
def temperature_at (altitude_m : ℝ) : ℝ :=
  match AltitudeCalculator.determine_zone altitude_m with
  | AtmosphereZone.Troposphere => 15.04 - 0.00649 * altitude_m
  | AtmosphereZone.LowerStratosphere => -56.46
  | AtmosphereZone.UpperStratosphere => -131.21 + 0.00299 * (altitude_m - 25000)

/-- The forward model's pressure at an altitude: the per-zone local `p`
computed inside `AltitudeCalculator::calculate_altitude` in `src/main.rs`
(the spec's `state_at_altitude`, second component), with the zone taken
from `AltitudeCalculator::determine_zone`. -/
def pressure_at (altitude_m : ℝ) : ℝ :=
  match AltitudeCalculator.determine_zone altitude_m with
  | AtmosphereZone.Troposphere =>
      101.29 * (((15.04 - 0.00649 * altitude_m) + 273.1) / 288.08) ^ (5.256 : ℝ)
  | AtmosphereZone.LowerStratosphere =>
      22.65 * Real.exp (-0.000157 * (altitude_m - 11000))
  | AtmosphereZone.UpperStratosphere =>
      2.488 * (((-131.21 + 0.00299 * (altitude_m - 25000)) + 273.1) / 216.6)
        ^ ((-11.388 : ℝ))

/-- The spec's forward operation `state_at_altitude`:
altitude → (temperature, pressure), assembled from the per-zone formulas
of `src/main.rs`. -/
def state_at_altitude (altitude_m : ℝ) : ℝ × ℝ :=
  (temperature_at altitude_m, pressure_at altitude_m)

/-- The pressure-range rejection condition of each branch of
`calculate_altitude` in `src/lib.rs`, verbatim from the code.  It depends
only on the zone and the pressure, never on the temperature. -/
def pressure_out_of_range : AtmosphereZone → ℝ → Prop
  | AtmosphereZone.Troposphere, p =>
      p > 101.29 * ((15.04 + 273.1) / 288.08) ^ (5.256 : ℝ) ∨ p ≤ 22.65
  | AtmosphereZone.LowerStratosphere, p =>
      p > 22.65 * Real.exp (-0.000157 * 11000) ∨ p ≤ 2.488
  | AtmosphereZone.UpperStratosphere, p =>
      p > 2.488 * (((-131.21 + 0.00299 * (25000 - 25000)) + 273.1) / 216.6)
        ^ ((-11.388 : ℝ))

/-- Modelled from the spec: the spec's claimed Troposphere upper pressure
bound, "the sea-level pressure upper bound derived from the supplied
temperature" — the code's sea-level pressure formula with the supplied
temperature substituted for the fixed standard temperature. -/
def spec_tropo_upper_bound (temperature_c : ℝ) : ℝ :=
  101.29 * ((temperature_c + 273.1) / 288.08) ^ (5.256 : ℝ)

end

/-! ## Claim theorems -/

/-- C1: for every altitude ≤ 11000 (with no lower bound), `determine_zone`
of `src/lib.rs` returns `Troposphere` (including exactly 11000); for
11000 < altitude ≤ 20000 (the second boundary) it returns
`LowerStratosphere`; above 20000 it returns `UpperStratosphere`. -/
theorem determine_zone_classification (a : ℝ) :
    (a ≤ 11000 → determine_zone a = AtmosphereZone.Troposphere) ∧
    (11000 < a → a ≤ 20000 → determine_zone a = AtmosphereZone.LowerStratosphere) ∧
    (20000 < a → determine_zone a = AtmosphereZone.UpperStratosphere) := by
  unfold determine_zone
  refine ⟨fun h => if_pos h, fun h1 h2 => ?_, fun h => ?_⟩
  · rw [if_neg (by linarith), if_pos h2]
  · rw [if_neg (by linarith), if_neg (by linarith)]

/-- Witness for C1 at the three representative altitudes of the repo's
own test. -/
theorem determine_zone_classification_witness :
    determine_zone 5000 = AtmosphereZone.Troposphere ∧
    determine_zone 15000 = AtmosphereZone.LowerStratosphere ∧
    determine_zone 30000 = AtmosphereZone.UpperStratosphere :=
  ⟨(determine_zone_classification 5000).1 (by norm_num),
   (determine_zone_classification 15000).2.1 (by norm_num) (by norm_num),
   (determine_zone_classification 30000).2.2 (by norm_num)⟩

/-- C10: `AltitudeCalculator::determine_zone` in `src/main.rs` sends every
negative altitude to `UpperStratosphere`, because its range patterns cover
only `0.0..=11000.0` and `11000.0..=25000.0` and everything else falls to
the default arm. -/
theorem AC_determine_zone_neg (a : ℝ) (h : a < 0) :
    AltitudeCalculator.determine_zone a = AtmosphereZone.UpperStratosphere := by
  unfold AltitudeCalculator.determine_zone
  rw [if_neg (by rintro ⟨h0, -⟩; linarith), if_neg (by rintro ⟨h0, -⟩; linarith)]

/-- Witness for C10 at altitude −1. -/
theorem AC_determine_zone_neg_witness :
    AltitudeCalculator.determine_zone (-1) = AtmosphereZone.UpperStratosphere :=
  AC_determine_zone_neg (-1) (by norm_num)

/-- C3: the inverse converter of `src/lib.rs` is total — on every input it
yields `none` or `some`, and `none` occurs exactly on the pressure-only
out-of-range condition of the chosen zone (never a panic, and never
because of the temperature). -/
theorem calculate_altitude_total (z : AtmosphereZone) (t p : ℝ) :
    (calculate_altitude z t p = none ↔ pressure_out_of_range z p) ∧
    (calculate_altitude z t p = none ∨ ∃ a, calculate_altitude z t p = some a) := by
  cases z <;>
    simp only [calculate_altitude, pressure_out_of_range] <;>
    split_ifs with h <;>
    first
      | exact ⟨iff_of_true rfl h, Or.inl rfl⟩
      | exact ⟨iff_of_false (by simp) h, Or.inr ⟨_, rfl⟩⟩

/-- C8: the consistency-check variant `AltitudeCalculator::calculate_altitude`
in `src/main.rs` divides the supplied hPa pressure by 10, compares it with
the forward-model pressure at the supplied altitude (zone re-derived from
that altitude), and returns the altitude unchanged when they agree within
0.01 kPa, panicking otherwise. -/
theorem AC_calculate_altitude_spec (t p_hpa a : ℝ) :
    AltitudeCalculator.calculate_altitude t p_hpa a =
      if |p_hpa / 10 - pressure_at a| < 0.01 then CalcResult.ok a
      else CalcResult.fatal := by
  unfold AltitudeCalculator.calculate_altitude pressure_at
  cases AltitudeCalculator.determine_zone a <;> rfl

/-! ## Numeric helper lemmas -/

/-- The Troposphere sea-level bound of `src/lib.rs` is at least 101.29
(the base of its power is ≥ 1). -/
lemma tropo_p0_lb :
    (101.29 : ℝ) ≤ 101.29 * ((15.04 + 273.1) / 288.08) ^ (5.256 : ℝ) := by
  have h1 : (1 : ℝ) ≤ ((15.04 + 273.1) / 288.08) ^ (5.256 : ℝ) := by
    calc (1 : ℝ) = (1 : ℝ) ^ (5.256 : ℝ) := (Real.one_rpow _).symm
      _ ≤ ((15.04 + 273.1) / 288.08) ^ (5.256 : ℝ) :=
          Real.rpow_le_rpow (by norm_num) (by norm_num) (by norm_num)
  nlinarith

/-- The Troposphere sea-level bound of `src/lib.rs` is below 102. -/
lemma tropo_p0_ub :
    (101.29 : ℝ) * ((15.04 + 273.1) / 288.08) ^ (5.256 : ℝ) < 102 := by
  have h6 : ((15.04 + 273.1) / 288.08 : ℝ) ^ (5.256 : ℝ)
      ≤ ((15.04 + 273.1) / 288.08 : ℝ) ^ ((6 : ℕ) : ℝ) :=
    Real.rpow_le_rpow_of_exponent_le (by norm_num) (by norm_num)
  rw [Real.rpow_natCast] at h6
  have h2 : ((15.04 + 273.1) / 288.08 : ℝ) ^ (6 : ℕ) < 1.002 := by norm_num
  nlinarith

/-- A pressure strictly between 22.65 and the sea-level bound is accepted
by the Troposphere branch of `calculate_altitude` in `src/lib.rs`. -/
lemma tropo_isSome (t p : ℝ) (h1 : 22.65 < p)
    (h2 : p ≤ 101.29 * ((15.04 + 273.1) / 288.08) ^ (5.256 : ℝ)) :
    (calculate_altitude AtmosphereZone.Troposphere t p).isSome := by
  simp only [calculate_altitude]
  rw [if_neg (by push_neg; exact ⟨h2, h1⟩)]
  rfl

/-- Lower bound for a real power with negative exponent: if `r ≤ y⁻¹`
with `1 ≤ r` and the exponent `e` is at least `n`, then `r ^ n ≤ y ^ (-e)`. -/
lemma rpow_neg_exponent_lb (y e r : ℝ) (n : ℕ) (hy : 0 < y)
    (hr1 : 1 ≤ r) (hry : r ≤ y⁻¹) (hn : (n : ℝ) ≤ e) :
    r ^ n ≤ y ^ (-e) := by
  have h1 : y ^ (-e) = (y⁻¹ : ℝ) ^ e := by
    rw [Real.rpow_neg hy.le, ← Real.inv_rpow hy.le]
  rw [h1]
  have h2 : (y⁻¹ : ℝ) ^ ((n : ℕ) : ℝ) ≤ (y⁻¹ : ℝ) ^ e :=
    Real.rpow_le_rpow_of_exponent_le (le_trans hr1 hry) hn
  rw [Real.rpow_natCast] at h2
  exact le_trans (pow_le_pow_left₀ (by linarith) hry n) h2

/-- C9: in the Troposphere branch of `calculate_altitude` in `src/lib.rs`
the returned altitude depends only on the temperature: two pressures that
both pass the range check give the same result. -/
theorem tropo_altitude_ignores_pressure (t p₁ p₂ : ℝ)
    (h₁ : (calculate_altitude AtmosphereZone.Troposphere t p₁).isSome)
    (h₂ : (calculate_altitude AtmosphereZone.Troposphere t p₂).isSome) :
    calculate_altitude AtmosphereZone.Troposphere t p₁ =
      calculate_altitude AtmosphereZone.Troposphere t p₂ := by
  simp only [calculate_altitude] at h₁ h₂ ⊢
  split_ifs at h₁ h₂ ⊢ <;> simp_all

/-- Witness for C9: pressures 50 and 60 kPa at 10 °C both pass the range
check and produce the same result. -/
theorem tropo_altitude_ignores_pressure_witness :
    calculate_altitude AtmosphereZone.Troposphere 10 50 =
      calculate_altitude AtmosphereZone.Troposphere 10 60 :=
  tropo_altitude_ignores_pressure 10 50 60
    (tropo_isSome 10 50 (by norm_num) (le_trans (by norm_num) tropo_p0_lb))
    (tropo_isSome 10 60 (by norm_num) (le_trans (by norm_num) tropo_p0_lb))

/-- C5 counterexample: at supplied temperature −56 °C the spec's
"derived from the supplied temperature" sea-level bound is below 50 kPa,
so the claim demands `none` at pressure 50 kPa — but the code accepts it,
because its bound uses the fixed standard temperature 15.04 °C. -/
theorem tropo_bound_ignores_temperature_cex :
    spec_tropo_upper_bound (-56) < 50 ∧
      (calculate_altitude AtmosphereZone.Troposphere (-56) 50).isSome := by
  constructor
  · unfold spec_tropo_upper_bound
    have hx0 : (0 : ℝ) < ((-56 : ℝ) + 273.1) / 288.08 := by norm_num
    have hx1 : ((-56 : ℝ) + 273.1) / 288.08 ≤ 1 := by norm_num
    have h5 : (((-56 : ℝ) + 273.1) / 288.08) ^ (5.256 : ℝ)
        ≤ (((-56 : ℝ) + 273.1) / 288.08) ^ ((5 : ℕ) : ℝ) :=
      Real.rpow_le_rpow_of_exponent_ge hx0 hx1 (by norm_num)
    rw [Real.rpow_natCast] at h5
    have h2 : (((-56 : ℝ) + 273.1) / 288.08) ^ (5 : ℕ) < 0.25 := by norm_num
    nlinarith
  · exact tropo_isSome (-56) 50 (by norm_num) (le_trans (by norm_num) tropo_p0_lb)

/-- C5 amended: the Troposphere branch of `calculate_altitude` in
`src/lib.rs` returns `none` exactly when the pressure lies outside the
half-open interval (22.65, P₀], where
P₀ = 101.29·((15.04+273.1)/288.08)^5.256 ≈ 101.4 kPa is the sea-level
pressure derived from the fixed standard temperature 15.04 °C —
independent of the supplied temperature; in particular pressure 200 kPa
yields `none`. -/
theorem tropo_none_iff :
    (∀ t p : ℝ, calculate_altitude AtmosphereZone.Troposphere t p = none ↔
      (p ≤ 22.65 ∨ 101.29 * ((15.04 + 273.1) / 288.08) ^ (5.256 : ℝ) < p)) ∧
    calculate_altitude AtmosphereZone.Troposphere 10 200 = none := by
  have key : ∀ t p : ℝ, calculate_altitude AtmosphereZone.Troposphere t p = none ↔
      (p ≤ 22.65 ∨ 101.29 * ((15.04 + 273.1) / 288.08) ^ (5.256 : ℝ) < p) := by
    intro t p
    simp only [calculate_altitude]
    split_ifs with h
    · exact iff_of_true rfl (h.elim Or.inr Or.inl)
    · refine iff_of_false (by simp) ?_
      push_neg at h
      rintro (h1 | h2)
      · linarith [h.2]
      · linarith [h.1]
  refine ⟨key, (key 10 200).mpr (Or.inr ?_)⟩
  linarith [tropo_p0_ub]

/-- C4 (the code evaluated at the claim's failing input): at the repo's
own test input (−56.5 °C, 20 kPa) the LowerStratosphere branch returns
`none`, because the code's upper bound 22.65·exp(−0.000157·11000) ≈ 4.03
kPa is far below the ≈22.65 kPa reference pressure that the claim, the
code's own comment and its own test all expect. -/
theorem lower_none_at_20 :
    calculate_altitude AtmosphereZone.LowerStratosphere (-56.5) 20 = none := by
  have hbound : (20 : ℝ) > 22.65 * Real.exp (-0.000157 * 11000) := by
    rw [show (-0.000157 : ℝ) * 11000 = -(1.727) by norm_num, Real.exp_neg]
    have h1 : (2.727 : ℝ) ≤ Real.exp 1.727 := by
      have := Real.add_one_le_exp (1.727 : ℝ)
      linarith
    have hEpos : (0 : ℝ) < Real.exp 1.727 := Real.exp_pos _
    have hinv : Real.exp 1.727 * (Real.exp 1.727)⁻¹ = 1 :=
      mul_inv_cancel₀ (ne_of_gt hEpos)
    nlinarith [mul_nonneg (sub_nonneg.mpr h1) (inv_nonneg.mpr hEpos.le)]
  simp only [calculate_altitude]
  rw [if_pos (Or.inl hbound)]

/-- C6 (the code evaluated at the claim's failing input): at pressure
100 kPa — far above the ≈2.488 kPa reference the claim allows — the
UpperStratosphere branch still returns a value, because the code's bound
2.488·((−131.21+0.00299·(25000−25000)+273.1)/216.6)^(−11.388) ≈ 307.9 kPa
is not the ≈2.488 kPa its own comment ("Pressure at 25 000 m") intends. -/
theorem upper_some_at_100 :
    (calculate_altitude AtmosphereZone.UpperStratosphere (-55) 100).isSome := by
  simp only [calculate_altitude]
  rw [if_neg]
  · rfl
  push_neg
  rw [show (((-131.21 : ℝ) + 0.00299 * (25000 - 25000)) + 273.1) / 216.6
      = 141.89 / 216.6 by norm_num]
  have hlb := rpow_neg_exponent_lb (141.89 / 216.6) 11.388 1.5 11
    (by norm_num) (by norm_num) (by norm_num) (by norm_num)
  have hval : (1.5 : ℝ) ^ (11 : ℕ) = 86.49755859375 := by norm_num
  nlinarith

/-- C7 (the code evaluated at the claim's failing input): pressure is not
monotonically decreasing across the 25000 m boundary of the forward model
of `src/main.rs`: p(25000) ≈ 2.51 kPa but p(26000) ≈ 243 kPa. -/
theorem pressure_not_monotone_at_25000 :
    pressure_at 25000 < pressure_at 26000 := by
  have hz1 : AltitudeCalculator.determine_zone 25000
      = AtmosphereZone.LowerStratosphere := by
    unfold AltitudeCalculator.determine_zone
    rw [if_neg (by rintro ⟨-, h⟩; linarith),
      if_pos (by constructor <;> norm_num)]
  have hz2 : AltitudeCalculator.determine_zone 26000
      = AtmosphereZone.UpperStratosphere := by
    unfold AltitudeCalculator.determine_zone
    rw [if_neg (by rintro ⟨-, h⟩; linarith),
      if_neg (by rintro ⟨-, h⟩; linarith)]
  have hp1 : pressure_at 25000
      = 22.65 * Real.exp (-0.000157 * (25000 - 11000)) := by
    unfold pressure_at
    rw [hz1]
  have hp2 : pressure_at 26000
      = 2.488 * (((-131.21 + 0.00299 * ((26000 : ℝ) - 25000)) + 273.1) / 216.6)
          ^ ((-11.388 : ℝ)) := by
    unfold pressure_at
    rw [hz2]
  rw [hp1, hp2,
    show (((-131.21 : ℝ) + 0.00299 * ((26000 : ℝ) - 25000)) + 273.1) / 216.6
      = 144.88 / 216.6 by norm_num]
  have h1 : Real.exp (-0.000157 * ((25000 : ℝ) - 11000)) < 1 := by
    rw [show (-0.000157 : ℝ) * ((25000 : ℝ) - 11000) = -2.198 by norm_num]
    exact Real.exp_lt_one_iff.mpr (by norm_num)
  have h2 := rpow_neg_exponent_lb (144.88 / 216.6) 11.388 1.49 11
    (by norm_num) (by norm_num) (by norm_num) (by norm_num)
  have h3 : (80 : ℝ) ≤ (1.49 : ℝ) ^ (11 : ℕ) := by norm_num
  have h4 : (0 : ℝ) < Real.exp (-0.000157 * ((25000 : ℝ) - 11000)) :=
    Real.exp_pos _
  nlinarith

/-- C2 (the code evaluated at the claim's failing input): the round trip
fails at the representative Troposphere interior point 5000 m — the
forward state there is (−17.41 °C, ≈54.1 kPa), the pressure passes the
inverse range check, yet the lib.rs inverse formula returns ≈1019 m,
nowhere within 1 m of 5000 m. -/
theorem roundtrip_fails_at_5000 :
    ∃ v, calculate_altitude AtmosphereZone.Troposphere
        (temperature_at 5000) (pressure_at 5000) = some v ∧ 1 < |v - 5000| := by
  have hz : AltitudeCalculator.determine_zone 5000
      = AtmosphereZone.Troposphere := by
    unfold AltitudeCalculator.determine_zone
    rw [if_pos (by constructor <;> norm_num)]
  have ht : temperature_at 5000 = -17.41 := by
    unfold temperature_at
    rw [hz]
    norm_num
  have hp : pressure_at 5000 = 101.29 * ((255.69 : ℝ) / 288.08) ^ (5.256 : ℝ) := by
    unfold pressure_at
    rw [hz, show ((15.04 - 0.00649 * (5000 : ℝ)) + 273.1) / 288.08
      = (255.69 : ℝ) / 288.08 by norm_num]
  have hx0 : (0 : ℝ) < (255.69 : ℝ) / 288.08 := by norm_num
  have hx1 : ((255.69 : ℝ) / 288.08) ≤ 1 := by norm_num
  have hlow : (22.65 : ℝ) < 101.29 * ((255.69 : ℝ) / 288.08) ^ (5.256 : ℝ) := by
    have h6 : ((255.69 : ℝ) / 288.08) ^ ((6 : ℕ) : ℝ)
        ≤ ((255.69 : ℝ) / 288.08) ^ (5.256 : ℝ) :=
      Real.rpow_le_rpow_of_exponent_ge hx0 hx1 (by norm_num)
    rw [Real.rpow_natCast] at h6
    have hc : (0.48 : ℝ) ≤ ((255.69 : ℝ) / 288.08) ^ (6 : ℕ) := by norm_num
    nlinarith
  have hhigh : 101.29 * ((255.69 : ℝ) / 288.08) ^ (5.256 : ℝ)
      ≤ 101.29 * ((15.04 + 273.1) / 288.08) ^ (5.256 : ℝ) := by
    have hle1 : ((255.69 : ℝ) / 288.08) ^ (5.256 : ℝ) ≤ 1 :=
      Real.rpow_le_one hx0.le hx1 (by norm_num)
    nlinarith [tropo_p0_lb]
  rw [ht, hp]
  refine ⟨(((288.08 / ((-17.41 : ℝ) + 273.1)) ^ ((1 : ℝ) / 5.256)) - 1)
    * 288.08 / 0.00649, ?_, ?_⟩
  · simp only [calculate_altitude]
    rw [if_neg (by push_neg; exact ⟨hhigh, hlow⟩)]
  · -- the returned value is below 2730 m, hence more than 1 m from 5000 m
    have hb0 : (1 : ℝ) ≤ 288.08 / ((-17.41 : ℝ) + 273.1) := by norm_num
    have hmono : (288.08 / ((-17.41 : ℝ) + 273.1)) ^ ((1 : ℝ) / 5.256)
        ≤ (288.08 / ((-17.41 : ℝ) + 273.1)) ^ ((1 : ℝ) / 2) :=
      Real.rpow_le_rpow_of_exponent_le hb0 (by norm_num)
    have hsq : (288.08 / ((-17.41 : ℝ) + 273.1)) ^ ((1 : ℝ) / 2) < 1.0615 := by
      rw [← Real.sqrt_eq_rpow, Real.sqrt_lt' (by norm_num)]
      norm_num
    have hub : (((288.08 / ((-17.41 : ℝ) + 273.1)) ^ ((1 : ℝ) / 5.256)) - 1)
        * 288.08 / 0.00649 < 2730 := by
      rw [div_lt_iff₀ (by norm_num : (0 : ℝ) < 0.00649)]
      nlinarith
    have h5 : (5000 : ℝ) - (((288.08 / ((-17.41 : ℝ) + 273.1))
          ^ ((1 : ℝ) / 5.256)) - 1) * 288.08 / 0.00649
        ≤ |(5000 : ℝ) - (((288.08 / ((-17.41 : ℝ) + 273.1))
          ^ ((1 : ℝ) / 5.256)) - 1) * 288.08 / 0.00649| := le_abs_self _
    rw [abs_sub_comm]
    linarith
